import Mathlib

/-!
# Verification of the managed external-stream connector (`rtsp_source.go`)

Shallow embedding of `src/internal/core/rtsp_source.go`:

* the TLS trust-verification callback installed in `runInner`
  (SHA-256 digest of the peer's leaf certificate, hex-encoded, compared
  against the configured fingerprint), modelled bit-for-bit including a
  full executable SHA-256;
* the connect-and-stream attempt `runInner` and the supervising retry
  loop `run`, modelled as trace-producing functions over an oracle that
  resolves each `select` race (which channel fires first) and supplies
  the frames delivered by the blocking read;
* the constructor `newRTSPSource` and `Close`, modelled as transformers
  of the observable shared state (the process-wide counter and the
  lifecycle-token flag).

Machine integers are `Nat` with explicit `% 2^32` / `% 256` where Go
overflow semantics matter; Go byte slices are `List Nat`; the partial
index `cs.PeerCertificates[0]` is modelled with `Option` (`none` = the
runtime panic on an empty slice).
-/

namespace RTSPSource

/-! ## Bytes and 32-bit words -/

/-- Truncation to a Go `uint32`. -/
def u32 (x : Nat) : Nat := x % 4294967296

/-- Truncation to a Go `byte`. -/
def u8 (x : Nat) : Nat := x % 256

/-- `uint32` addition with Go wrap-around. -/
def add32 (a b : Nat) : Nat := (a + b) % 4294967296

/-- 32-bit right rotation, as used by the SHA-256 round functions. -/
def rotr32 (n x : Nat) : Nat := ((x >>> n) ||| (x <<< (32 - n))) % 4294967296

/-- 32-bit complement (`^x` on a Go `uint32` with `x < 2^32`). -/
def not32 (x : Nat) : Nat := 4294967295 - x

/-! ## SHA-256 (`crypto/sha256`)

`h := sha256.New(); h.Write(raw); h.Sum(nil)` in the verification
callback is the plain FIPS 180-4 SHA-256 of `raw`; it is embedded here
as an executable function on byte lists. -/

def shaCh (x y z : Nat) : Nat := (x &&& y) ^^^ (not32 x &&& z)

def shaMaj (x y z : Nat) : Nat := (x &&& y) ^^^ (x &&& z) ^^^ (y &&& z)

def bigSigma0 (x : Nat) : Nat := rotr32 2 x ^^^ rotr32 13 x ^^^ rotr32 22 x

def bigSigma1 (x : Nat) : Nat := rotr32 6 x ^^^ rotr32 11 x ^^^ rotr32 25 x

def smallSigma0 (x : Nat) : Nat := rotr32 7 x ^^^ rotr32 18 x ^^^ (x >>> 3)

def smallSigma1 (x : Nat) : Nat := rotr32 17 x ^^^ rotr32 19 x ^^^ (x >>> 10)

/-- The 64 SHA-256 round constants. -/
def shaK : List Nat :=
  [1116352408, 1899447441, 3049323471, 3921009573, 961987163, 1508970993,
   2453635748, 2870763221, 3624381080, 310598401, 607225278, 1426881987,
   1925078388, 2162078206, 2614888103, 3248222580, 3835390401, 4022224774,
   264347078, 604807628, 770255983, 1249150122, 1555081692, 1996064986,
   2554220882, 2821834349, 2952996808, 3210313671, 3336571891, 3584528711,
   113926993, 338241895, 666307205, 773529912, 1294757372, 1396182291,
   1695183700, 1986661051, 2177026350, 2456956037, 2730485921, 2820302411,
   3259730800, 3345764771, 3516065817, 3600352804, 4094571909, 275423344,
   430227734, 506948616, 659060556, 883997877, 958139571, 1322822218,
   1537002063, 1747873779, 1955562222, 2024104815, 2227730452, 2361852424,
   2428436474, 2756734187, 3204031479, 3329325298]

/-- The SHA-256 initial hash value. -/
def shaH0 : List Nat :=
  [1779033703, 3144134277, 1013904242, 2773480762,
   1359893119, 2600822924, 528734635, 1541459225]

/-- Big-endian 32-bit word from four bytes. -/
def wordOfBytes (b0 b1 b2 b3 : Nat) : Nat :=
  (b0 <<< 24) + (b1 <<< 16) + (b2 <<< 8) + b3

/-- The four big-endian bytes of a 32-bit word. -/
def wordBytes (w : Nat) : List Nat := [u8 (w >>> 24), u8 (w >>> 16), u8 (w >>> 8), u8 w]

/-- The sixteen big-endian words of one 64-byte block. -/
def blockWords : List Nat → List Nat
  | b0 :: b1 :: b2 :: b3 :: rest => wordOfBytes b0 b1 b2 b3 :: blockWords rest
  | _ => []

/-- Extend the sixteen block words to the 64-entry message schedule. -/
def msgSchedule (w16 : List Nat) : List Nat :=
  (List.range 48).foldl
    (fun w _ =>
      let n := w.length
      w ++ [add32 (add32 (smallSigma1 (w.getD (n - 2) 0)) (w.getD (n - 7) 0))
              (add32 (smallSigma0 (w.getD (n - 15) 0)) (w.getD (n - 16) 0))])
    w16

/-- One SHA-256 round on the working variables. -/
def shaRound (st : List Nat) (kw : Nat × Nat) : List Nat :=
  match st with
  | [a, b, c, d, e, f, g, h] =>
    let t1 := add32 (add32 h (bigSigma1 e)) (add32 (shaCh e f g) (add32 kw.1 kw.2))
    let t2 := add32 (bigSigma0 a) (shaMaj a b c)
    [add32 t1 t2, a, b, c, add32 d t1, e, f, g]
  | st => st

/-- SHA-256 compression of one 64-byte block into the hash state. -/
def shaCompress (hs : List Nat) (block : List Nat) : List Nat :=
  match hs, (shaK.zip (msgSchedule (blockWords block))).foldl shaRound hs with
  | [h0, h1, h2, h3, h4, h5, h6, h7], [a, b, c, d, e, f, g, h] =>
    [add32 h0 a, add32 h1 b, add32 h2 c, add32 h3 d, add32 h4 e, add32 h5 f, add32 h6 g, add32 h7 h]
  | hs, _ => hs

/-- SHA-256 padding: append `0x80`, zeros to 56 mod 64, and the 64-bit
big-endian bit length. -/
def shaPad (msg : List Nat) : List Nat :=
  let bitLen := 8 * msg.length
  msg ++ [0x80] ++ List.replicate ((119 - msg.length % 64) % 64) 0 ++
    [u8 (bitLen >>> 56), u8 (bitLen >>> 48), u8 (bitLen >>> 40), u8 (bitLen >>> 32),
     u8 (bitLen >>> 24), u8 (bitLen >>> 16), u8 (bitLen >>> 8), u8 bitLen]

/-- Fold the compression function over the first `n` 64-byte blocks. -/
def shaBlocks (hs : List Nat) (l : List Nat) : Nat → List Nat
  | 0 => hs
  | n + 1 => shaBlocks (shaCompress hs (l.take 64)) (l.drop 64) n

/-- SHA-256 of a byte list, as a 32-byte list. -/
def sha256 (msg : List Nat) : List Nat :=
  let padded := shaPad msg
  let hs := shaBlocks shaH0 padded (padded.length / 64)
  (hs.map wordBytes).flatten

/-! ## Hex encoding (`encoding/hex.EncodeToString`) -/

/-- Lowercase hex digit, as produced by `encoding/hex`. -/
def hexChar (n : Nat) : Char :=
  if n < 10 then Char.ofNat (48 + n) else Char.ofNat (87 + n)

/-- The two hex characters of one byte. -/
def byteHex (b : Nat) : List Char := [hexChar (b / 16), hexChar (b % 16)]

/-- `hex.EncodeToString`: lowercase hex string of a byte list. -/
def hexEncodeToString (bs : List Nat) : String :=
  String.mk ((bs.map byteHex).flatten)

/-- `strings.ToLower` restricted to ASCII case mapping (the only case
that arises for hex fingerprints). -/
def toLowerStr (s : String) : String := String.mk (s.data.map Char.toLower)

/-! ## The trust-verification callback

`runInner` builds a `tls.Config` with `InsecureSkipVerify: true` and a
`VerifyConnection` closure over `s.fingerprint`.  The closure body on
the leaf certificate is `verifyCert`; `verifyConnection` adds the
unguarded `cs.PeerCertificates[0]` access (`none` models the index
out-of-range panic on an empty certificate list). -/

/-- Body of the `VerifyConnection` closure applied to the raw leaf
certificate: hash, hex-encode, compare against the lowered fingerprint,
and on mismatch return the descriptive error built by `fmt.Errorf`. -/
def verifyCert (fingerprint : String) (certRaw : List Nat) : Except String Unit :=
  if hexEncodeToString (sha256 certRaw) ≠ toLowerStr fingerprint then
    .error ("server fingerprint do not match: expected " ++ toLowerStr fingerprint ++
      ", got " ++ hexEncodeToString (sha256 certRaw))
  else
    .ok ()

/-- The full `VerifyConnection` callback on the connection state's
certificate list.  `none` models the Go runtime panic raised by
`cs.PeerCertificates[0]` when the list is empty. -/
def verifyConnection (fingerprint : String) (peerCertificates : List (List Nat)) :
    Option (Except String Unit) :=
  match peerCertificates with
  | [] => none
  | c :: _ => some (verifyCert fingerprint c)

/-- Trust decision of the TLS handshake under the config built in
`runInner`: `InsecureSkipVerify` is `true`, so the standard
chain-validation outcome `chainOk` is never consulted and
`VerifyConnection` alone decides.  `none` models the panic on an empty
certificate list. -/
def tlsTrustDecision (fingerprint : String) (chainOk : Bool)
    (peerCertificates : List (List Nat)) : Option Bool :=
  let insecureSkipVerify := true
  if !insecureSkipVerify && !chainOk then some false
  else
    match verifyConnection fingerprint peerCertificates with
    | none => none
    | some (.ok _) => some true
    | some (.error _) => some false

/-- Modelled from the spec: the "standard certificate-chain trust
validation" outcome that the spec says an empty fingerprint falls back
to — the connection is trusted exactly when the chain validates. -/
def standardChainTrust (chainOk : Bool) : Bool := chainOk

/-! ## Events and traces

`run`/`runInner` are concurrent Go code; they are embedded as functions
producing the sequence of externally observable actions (log calls,
parent-sink notifications, frame deliveries, context cancellations,
channel joins, connection close, cooldown waits).  Each `select` race is
resolved by an oracle argument saying which channel fired first, and the
frames delivered by the blocking `ReadFrames` goroutine before the read
phase ends are likewise supplied by the oracle. -/

/-- Log levels used by this file (`logger.Debug`, `logger.Info`). -/
inductive Level
  | debug
  | info
deriving DecidableEq, Repr

/-- One frame handed to the `ReadFrames` callback:
`(trackID, streamType, payload)`. -/
structure Frame where
  trackID : Int
  streamType : Nat
  payload : List Nat
deriving DecidableEq, Repr

/-- Externally observable actions of the connector. -/
inductive Ev
  | log (lvl : Level) (msg : String)
  | cancelInner
  | joinDial
  | setReady (tracks : List Nat)
  | setNotReady
  | frame (f : Frame)
  | closeConn
  | joinRead
  | waitPause (seconds : Nat)
  | stopped
deriving DecidableEq, Repr

/-- `s.log` prepends the `"[rtsp source] "` prefix. -/
def slog (lvl : Level) (msg : String) : Ev := .log lvl ("[rtsp source] " ++ msg)

/-- `rtspSourceRetryPause = 5 * time.Second`, in seconds. -/
def rtspSourceRetryPause : Nat := 5

/-- A successful dial result: the session handle with its negotiated
tracks (`conn.Tracks()`), abstracted as a list of track identifiers. -/
structure Conn where
  tracks : List Nat
deriving DecidableEq, Repr

/-- Oracle for the dial-phase `select`: either `s.ctx.Done()` fires
first, or the dial goroutine closes `dialDone` first with its result. -/
inductive DialRace
  | ctxDoneFirst
  | dialDoneFirst (result : Except String Conn)
deriving Repr

/-- Oracle for the read-phase `select`: either `s.ctx.Done()` fires
first, or `ReadFrames` returns an error on `readErr` first. -/
inductive ReadRace
  | ctxDoneFirst
  | readErrFirst (err : String)
deriving DecidableEq, Repr

/-- Oracle for one `runInner` attempt: how the dial race resolves, the
frames the `ReadFrames` callback delivers during the read phase, and
how the read race resolves. -/
structure AttemptScenario where
  dial : DialRace
  frames : List Frame
  read : ReadRace
deriving Repr

/-- Trace and return value of one `runInner` attempt.  The returned
`Bool` is `runInner`'s result: `false` = cancelled (stop the loop),
`true` = failed (retry after the pause). -/
def runInner (sc : AttemptScenario) : List Ev × Bool :=
  let pre := [slog .debug "connecting"]
  match sc.dial with
  | .ctxDoneFirst =>
    -- case <-s.ctx.Done(): innerCtxCancel(); <-dialDone; return false
    (pre ++ [.cancelInner, .joinDial], false)
  | .dialDoneFirst (.error e) =>
    -- case <-dialDone: innerCtxCancel(); err != nil: log ERR; return true
    (pre ++ [.joinDial, .cancelInner, slog .info ("ERR: " ++ e)], true)
  | .dialDoneFirst (.ok conn) =>
    let mid := pre ++ [.joinDial, .cancelInner, slog .info "ready",
      .setReady conn.tracks] ++ sc.frames.map .frame
    match sc.read with
    | .ctxDoneFirst =>
      -- case <-s.ctx.Done(): conn.Close(); <-readErr; (defer) not-ready; return false
      (mid ++ [.closeConn, .joinRead, .setNotReady], false)
    | .readErrFirst e =>
      -- case err := <-readErr: log ERR; conn.Close(); (defer) not-ready; return true
      (mid ++ [.joinRead, slog .info ("ERR: " ++ e), .closeConn, .setNotReady], true)

/-- Oracle for one iteration of the supervising loop: the attempt's
oracle and whether `s.ctx.Done()` fires before the retry pause elapses. -/
structure RunStep where
  attempt : AttemptScenario
  cancelDuringPause : Bool
deriving Repr

/-- Trace of the supervising loop `run` over a finite oracle script.
The returned `Bool` is `true` when the loop broke out (reached the
terminal `Stopped` state) and `false` when the script was exhausted with
the loop still running. -/
def runLoop : List RunStep → List Ev × Bool
  | [] => ([], false)
  | st :: rest =>
    let (evs, ok) := runInner st.attempt
    if ok = false then
      -- runInner reported cancelled: break, terminal state
      (evs ++ [.stopped], true)
    else if st.cancelDuringPause then
      -- case <-s.ctx.Done() during the pause: break, terminal state
      (evs ++ [.stopped], true)
    else
      -- case <-time.After(rtspSourceRetryPause): loop again
      let (evs2, fin) := runLoop rest
      (evs ++ [.waitPause rtspSourceRetryPause] ++ evs2, fin)

/-! ## Observable shared state of `newRTSPSource` / `Close` -/

/-- The shared observable state: the process-wide
`stats.CountSourcesRTSP` counter and the lifecycle token's cancellation
flag. -/
structure ConnState where
  countSourcesRTSP : Int
  ctxCancelled : Bool
deriving DecidableEq, Repr

/-- Effect of `newRTSPSource` on the shared state:
`atomic.AddInt64(s.stats.CountSourcesRTSP, +1)`. -/
def newRTSPSource (st : ConnState) : ConnState :=
  { st with countSourcesRTSP := st.countSourcesRTSP + 1 }

/-- Effect of `Close` on the shared state:
`atomic.AddInt64(s.stats.CountSourcesRTSP, -1)` then `s.ctxCancel()`,
with no already-stopped guard. -/
def Close (st : ConnState) : ConnState :=
  { st with countSourcesRTSP := st.countSourcesRTSP - 1, ctxCancelled := true }

/-! ## Trace observations -/

/-- Readiness notifications among the events. -/
def isNotif : Ev → Bool
  | .setReady _ => true
  | .setNotReady => true
  | _ => false

/-- The readiness-notification subsequence of a trace. -/
def notifs (evs : List Ev) : List Ev := evs.filter isNotif

/-- Number of `ready` notifications in a trace. -/
def readyCount (evs : List Ev) : Nat :=
  (evs.filter fun e => match e with | .setReady _ => true | _ => false).length

/-- Number of `not-ready` notifications in a trace. -/
def notReadyCount (evs : List Ev) : Nat :=
  (evs.filter fun e => match e with | .setNotReady => true | _ => false).length

/-- Strict ready/not-ready alternation starting with `ready`, each
`ready` closed by a `not-ready`. -/
def alternates : List Ev → Bool
  | [] => true
  | .setReady _ :: .setNotReady :: rest => alternates rest
  | _ => false

/-- Log events of a trace. -/
def logs (evs : List Ev) : List Ev :=
  evs.filter fun e => match e with | .log _ _ => true | _ => false

/-- Frame events of a trace. -/
def isFrame : Ev → Bool
  | .frame _ => true
  | _ => false

/-- Number of attempts started in a trace (each attempt logs
`"connecting"` first). -/
def attemptCount (evs : List Ev) : Nat :=
  (evs.filter fun e => e = slog .debug "connecting").length

/-! ## Concrete inputs used to exercise the theorems -/

/-- A session handle with two negotiated tracks. -/
def connW : Conn := ⟨[0, 1]⟩

def frameW1 : Frame := ⟨0, 0, [104, 101]⟩

def frameW2 : Frame := ⟨1, 1, [108, 108, 111]⟩

/-- Attempt in which the lifecycle token fires while the dial is in flight. -/
def scDialCancelW : AttemptScenario := ⟨.ctxDoneFirst, [], .ctxDoneFirst⟩

/-- Attempt in which the dial completes first, with an error. -/
def scDialErrW : AttemptScenario := ⟨.dialDoneFirst (.error "dial refused"), [], .ctxDoneFirst⟩

/-- Attempt in which the dial succeeds and the lifecycle token fires
during the read, after two frames were delivered. -/
def scReadCancelW : AttemptScenario := ⟨.dialDoneFirst (.ok connW), [frameW1, frameW2], .ctxDoneFirst⟩

/-- Attempt in which the dial succeeds and the read fails after one frame. -/
def scReadErrW : AttemptScenario := ⟨.dialDoneFirst (.ok connW), [frameW1], .readErrFirst "read timeout"⟩

/-- A failed attempt followed by an uninterrupted cooldown. -/
def failStepW : RunStep := ⟨scDialErrW, false⟩

/-- A concrete raw leaf certificate. -/
def certW : List Nat := [1, 2, 3]

/-- The SHA-256 digest of `certW`, hex-encoded, in uppercase — the
spec's "configured `AABBCC…`, presented digest lowercase" scenario. -/
def fingerprintW : String := "039058C6F2C0CB492C533B0A4D14EF77CC0F78ABCCCED5287D84A1A2011CFB81"

/-! ## Helper lemmas: the hash/hex layer -/

theorem length_shaCompress (hs block : List Nat) :
    (shaCompress hs block).length = hs.length := by
  unfold shaCompress
  split
  · simp_all
  · rfl

theorem length_shaBlocks (n : Nat) :
    ∀ (hs l : List Nat), (shaBlocks hs l n).length = hs.length := by
  induction n with
  | zero => intro hs l; rfl
  | succ n ih =>
    intro hs l
    show (shaBlocks (shaCompress hs (l.take 64)) (l.drop 64) n).length = hs.length
    rw [ih, length_shaCompress]

theorem length_sha256 (msg : List Nat) : (sha256 msg).length = 32 := by
  unfold sha256
  rw [List.length_flatten, List.map_map]
  have hfun : (List.length ∘ wordBytes) = fun _ : Nat => 4 := funext fun w => rfl
  rw [hfun, List.map_const', length_shaBlocks]
  decide

theorem sha256_bytes_lt (msg : List Nat) : ∀ b ∈ sha256 msg, b < 256 := by
  intro b hb
  unfold sha256 at hb
  rw [List.mem_flatten] at hb
  obtain ⟨l, hl, hbl⟩ := hb
  rw [List.mem_map] at hl
  obtain ⟨w, _, rfl⟩ := hl
  simp only [wordBytes, u8, List.mem_cons, List.not_mem_nil, or_false] at hbl
  rcases hbl with rfl | rfl | rfl | rfl <;> exact Nat.mod_lt _ (by omega)

theorem toLower_hexChar : ∀ n < 16, Char.toLower (hexChar n) = hexChar n := by decide

theorem hexEncode_lower_fixed (bs : List Nat) (hlt : ∀ b ∈ bs, b < 256) :
    toLowerStr (hexEncodeToString bs) = hexEncodeToString bs := by
  unfold toLowerStr hexEncodeToString
  congr 1
  show ((bs.map byteHex).flatten).map Char.toLower = (bs.map byteHex).flatten
  induction bs with
  | nil => rfl
  | cons b bs ih =>
    have hb : b < 256 := hlt b (List.mem_cons_self b bs)
    have hrest : ∀ x ∈ bs, x < 256 := fun x hx => hlt x (List.mem_cons_of_mem b hx)
    simp only [List.map_cons, List.flatten_cons, List.map_append, ih hrest, byteHex,
      List.map_cons, List.map_nil]
    rw [toLower_hexChar (b / 16) (Nat.div_lt_of_lt_mul (by omega)),
      toLower_hexChar (b % 16) (Nat.mod_lt _ (by omega))]

theorem length_hexEncode (bs : List Nat) :
    (hexEncodeToString bs).length = 2 * bs.length := by
  unfold hexEncodeToString
  show ((bs.map byteHex).flatten).length = 2 * bs.length
  induction bs with
  | nil => rfl
  | cons b bs ih => simp [byteHex, ih]; omega

theorem hexEncode_sha256_ne_empty (msg : List Nat) :
    hexEncodeToString (sha256 msg) ≠ "" := by
  intro h
  have : (hexEncodeToString (sha256 msg)).length = 0 := by rw [h]; rfl
  rw [length_hexEncode, length_sha256] at this
  omega

/-! ## Helper lemmas: the trace layer -/

theorem filter_map_frame (p : Ev → Bool) (hp : ∀ f, p (Ev.frame f) = false)
    (fs : List Frame) : (fs.map Ev.frame).filter p = [] := by
  induction fs with
  | nil => rfl
  | cons f fs ih => simp [List.filter_cons, hp, ih]

theorem notifs_runInner (sc : AttemptScenario) :
    notifs (runInner sc).1 = [] ∨
      ∃ t, notifs (runInner sc).1 = [Ev.setReady t, Ev.setNotReady] := by
  rcases sc with ⟨dial, frames, read⟩
  cases dial with
  | ctxDoneFirst => left; rfl
  | dialDoneFirst res =>
    cases res with
    | error e => left; rfl
    | ok conn =>
      right
      refine ⟨conn.tracks, ?_⟩
      have hfr : (frames.map Ev.frame).filter isNotif = [] :=
        filter_map_frame isNotif (fun _ => rfl) frames
      cases read with
      | ctxDoneFirst =>
        simp [runInner, notifs, List.filter_append, hfr, slog, isNotif]
      | readErrFirst e =>
        simp [runInner, notifs, List.filter_append, hfr, slog, isNotif]

theorem runLoop_cons (st : RunStep) (rest : List RunStep) :
    runLoop (st :: rest) =
      if (runInner st.attempt).2 = false then ((runInner st.attempt).1 ++ [.stopped], true)
      else if st.cancelDuringPause then ((runInner st.attempt).1 ++ [.stopped], true)
      else ((runInner st.attempt).1 ++ [.waitPause rtspSourceRetryPause] ++ (runLoop rest).1,
        (runLoop rest).2) := by
  show (match runInner st.attempt with
    | (evs, ok) => if ok = false then (evs ++ [Ev.stopped], true)
      else if st.cancelDuringPause then (evs ++ [Ev.stopped], true)
      else (evs ++ [Ev.waitPause rtspSourceRetryPause] ++ (runLoop rest).1, (runLoop rest).2)) = _
  rcases h : runInner st.attempt with ⟨evs, ok⟩
  rfl

theorem notifs_append (a b : List Ev) : notifs (a ++ b) = notifs a ++ notifs b :=
  List.filter_append ..

/-- C1 loop part: the notification subsequence of any loop trace is a
strict ready/not-ready alternation. -/
theorem alternates_runLoop (script : List RunStep) :
    alternates (notifs (runLoop script).1) = true := by
  induction script with
  | nil => rfl
  | cons st rest ih =>
    rw [runLoop_cons]
    by_cases hok : (runInner st.attempt).2 = false
    · rw [if_pos hok]
      rcases notifs_runInner st.attempt with h | ⟨t, h⟩ <;>
        · show alternates (notifs ((runInner st.attempt).1 ++ [Ev.stopped])) = true
          rw [notifs_append, h]; rfl
    · rw [if_neg hok]
      by_cases hcp : st.cancelDuringPause
      · rw [if_pos hcp]
        rcases notifs_runInner st.attempt with h | ⟨t, h⟩ <;>
          · show alternates (notifs ((runInner st.attempt).1 ++ [Ev.stopped])) = true
            rw [notifs_append, h]; rfl
      · rw [if_neg hcp]
        show alternates (notifs ((runInner st.attempt).1 ++
          [Ev.waitPause rtspSourceRetryPause] ++ (runLoop rest).1)) = true
        rw [notifs_append, notifs_append]
        rcases notifs_runInner st.attempt with h | ⟨t, h⟩
        · rw [h]; simpa using ih
        · rw [h]; simpa [alternates] using ih

theorem attemptCount_append (a b : List Ev) :
    attemptCount (a ++ b) = attemptCount a + attemptCount b := by
  unfold attemptCount
  rw [List.filter_append, List.length_append]

/-! ## Claims -/

/-- C1: in every execution, the ready and not-ready notifications to the
parent sink strictly alternate starting with ready: each `runInner`
attempt emits a not-ready iff it previously emitted a ready (and then
the not-ready comes before the attempt returns), so over the whole
supervised loop the notification sequence is a strict
ready/not-ready alternation before any retry, subsequent ready, or
termination. -/
theorem rtsp_C1_notifications_alternate :
    (∀ sc : AttemptScenario, notifs (runInner sc).1 = [] ∨
      ∃ t, notifs (runInner sc).1 = [Ev.setReady t, Ev.setNotReady]) ∧
    (∀ script : List RunStep, alternates (notifs (runLoop script).1) = true) :=
  ⟨notifs_runInner, alternates_runLoop⟩

/-- C4: after an attempt that reports failed (`runInner` returns
`true`), the supervisor waits the fixed 5-second pause raced against the
lifecycle token: cancellation during the wait reaches `Stopped` with no
further attempt, otherwise the loop re-enters a new attempt; and there
is no maximum retry count — `n` consecutive failures leave the loop
still running after `n` attempts, for every `n`. -/
theorem rtsp_C4_cooldown_retry :
    (∀ (st : RunStep) (rest : List RunStep), (runInner st.attempt).2 = true →
      (st.cancelDuringPause = true →
        runLoop (st :: rest) = ((runInner st.attempt).1 ++ [Ev.stopped], true) ∧
        attemptCount (runLoop (st :: rest)).1 = attemptCount (runInner st.attempt).1) ∧
      (st.cancelDuringPause = false →
        runLoop (st :: rest) =
          ((runInner st.attempt).1 ++ [Ev.waitPause rtspSourceRetryPause] ++ (runLoop rest).1,
            (runLoop rest).2))) ∧
    (∀ n : Nat, attemptCount (runLoop (List.replicate n failStepW)).1 = n ∧
      (runLoop (List.replicate n failStepW)).2 = false) := by
  constructor
  · intro st rest h
    have hok : ¬((runInner st.attempt).2 = false) := by rw [h]; simp
    constructor
    · intro hcp
      rw [runLoop_cons, if_neg hok, if_pos hcp]
      exact ⟨rfl, by rw [attemptCount_append]; rfl⟩
    · intro hcp
      rw [runLoop_cons, if_neg hok, if_neg (by rw [hcp]; simp)]
  · intro n
    induction n with
    | zero => exact ⟨rfl, rfl⟩
    | succ n ih =>
      rw [List.replicate_succ, runLoop_cons,
        if_neg (show ¬(runInner failStepW.attempt).2 = false by decide),
        if_neg (show ¬failStepW.cancelDuringPause = true by decide)]
      refine ⟨?_, ih.2⟩
      rw [attemptCount_append, attemptCount_append, ih.1]
      have h1 : attemptCount (runInner failStepW.attempt).1 = 1 := by decide
      have h2 : attemptCount [Ev.waitPause rtspSourceRetryPause] = 0 := rfl
      rw [h1, h2]
      omega

/-- Witness for C4: a failed attempt with cancellation during the pause
stops immediately, and three consecutive failures leave the loop running
after exactly three attempts. -/
theorem rtsp_C4_witness :
    runLoop [⟨scDialErrW, true⟩] = ((runInner scDialErrW).1 ++ [Ev.stopped], true) ∧
    attemptCount (runLoop (List.replicate 3 failStepW)).1 = 3 ∧
    (runLoop (List.replicate 3 failStepW)).2 = false :=
  ⟨((rtsp_C4_cooldown_retry.1 ⟨scDialErrW, true⟩ [] (by decide)).1 rfl).1,
   (rtsp_C4_cooldown_retry.2 3).1, (rtsp_C4_cooldown_retry.2 3).2⟩

/-- C5: when the lifecycle token is cancelled while the dial is in
flight, the attempt cancels the dial sub-scope, joins the dial
goroutine, and reports cancelled with zero ready notifications; the
loop then reaches `Stopped` having never emitted ready. -/
theorem rtsp_C5_cancel_during_dial (sc : AttemptScenario)
    (h : sc.dial = DialRace.ctxDoneFirst) :
    runInner sc = ([slog .debug "connecting", .cancelInner, .joinDial], false) ∧
    readyCount (runInner sc).1 = 0 ∧
    ∀ (cp : Bool) (rest : List RunStep),
      runLoop (⟨sc, cp⟩ :: rest) =
        ([slog .debug "connecting", .cancelInner, .joinDial, Ev.stopped], true) ∧
      readyCount (runLoop (⟨sc, cp⟩ :: rest)).1 = 0 := by
  rcases sc with ⟨dial, frames, read⟩
  cases h
  refine ⟨rfl, rfl, ?_⟩
  intro cp rest
  have hc : (runInner (⟨DialRace.ctxDoneFirst, frames, read⟩ : AttemptScenario)).2 = false := rfl
  rw [runLoop_cons, if_pos hc]
  exact ⟨rfl, rfl⟩

/-- Witness for C5: the concrete cancel-during-dial scenario. -/
theorem rtsp_C5_witness :
    runInner scDialCancelW = ([slog .debug "connecting", .cancelInner, .joinDial], false) ∧
    readyCount (runLoop [⟨scDialCancelW, false⟩]).1 = 0 :=
  ⟨(rtsp_C5_cancel_during_dial scDialCancelW rfl).1,
   ((rtsp_C5_cancel_during_dial scDialCancelW rfl).2.2 false []).2⟩

/-- C6: when the lifecycle token is cancelled while the blocking read is
in flight, the attempt closes the session handle, joins the read
goroutine, then emits the deferred not-ready and reports cancelled; the
loop reaches `Stopped` only after that join. -/
theorem rtsp_C6_cancel_during_read (sc : AttemptScenario) (conn : Conn)
    (hd : sc.dial = DialRace.dialDoneFirst (.ok conn))
    (hr : sc.read = ReadRace.ctxDoneFirst) :
    runInner sc =
      ([slog .debug "connecting", .joinDial, .cancelInner, slog .info "ready",
        Ev.setReady conn.tracks] ++ sc.frames.map Ev.frame ++
        [Ev.closeConn, Ev.joinRead, Ev.setNotReady], false) ∧
    ∀ (cp : Bool) (rest : List RunStep),
      runLoop (⟨sc, cp⟩ :: rest) = ((runInner sc).1 ++ [Ev.stopped], true) := by
  rcases sc with ⟨dial, frames, read⟩
  cases hd
  cases hr
  refine ⟨rfl, ?_⟩
  intro cp rest
  have hc : (runInner (⟨DialRace.dialDoneFirst (.ok conn), frames,
    ReadRace.ctxDoneFirst⟩ : AttemptScenario)).2 = false := rfl
  rw [runLoop_cons, if_pos hc]

/-- Witness for C6: the concrete cancel-during-read scenario with two
delivered frames. -/
theorem rtsp_C6_witness :
    runInner scReadCancelW =
      ([slog .debug "connecting", .joinDial, .cancelInner, slog .info "ready",
        Ev.setReady connW.tracks] ++ scReadCancelW.frames.map Ev.frame ++
        [Ev.closeConn, Ev.joinRead, Ev.setNotReady], false) :=
  (rtsp_C6_cancel_during_read scReadCancelW connW rfl rfl).1

/-- C7 counterexample: `Close` is not an idempotent no-op — a second
`Close` decrements the process-wide counter again, so the observable
state changes (counter drops to −1 from a lifetime that started at 0). -/
theorem rtsp_C7_counterexample :
    Close (Close (newRTSPSource ⟨0, false⟩)) ≠ Close (newRTSPSource ⟨0, false⟩) ∧
    (Close (Close (newRTSPSource ⟨0, false⟩))).countSourcesRTSP = -1 := by
  constructor
  · decide
  · decide

/-- C7 amended: the counter is incremented exactly once at construction
and decremented once per `Close` call; a lifetime with exactly one
`Close` nets zero, but `Close` is not idempotent — every further call
decrements again (and re-cancels the already-cancelled token). -/
theorem rtsp_C7_counter_per_call (st : ConnState) :
    (newRTSPSource st).countSourcesRTSP = st.countSourcesRTSP + 1 ∧
    (Close st).countSourcesRTSP = st.countSourcesRTSP - 1 ∧
    (Close (newRTSPSource st)).countSourcesRTSP = st.countSourcesRTSP ∧
    (Close st).ctxCancelled = true := by
  refine ⟨rfl, rfl, ?_, rfl⟩
  show st.countSourcesRTSP + 1 - 1 = st.countSourcesRTSP
  omega

/-- C8: within every successful session, the ready notification (with
the session's tracks) precedes the first forwarded frame, the frames are
forwarded exactly in delivery order, and the tail of the attempt trace
contains no frame and no ready but ends with the not-ready
notification. -/
theorem rtsp_C8_session_ordering (sc : AttemptScenario) (conn : Conn)
    (hd : sc.dial = DialRace.dialDoneFirst (.ok conn)) :
    ∃ tail : List Ev,
      (runInner sc).1 =
        [slog .debug "connecting", .joinDial, .cancelInner, slog .info "ready",
          Ev.setReady conn.tracks] ++ sc.frames.map Ev.frame ++ tail ∧
      tail.filter isFrame = [] ∧
      readyCount tail = 0 ∧
      tail.getLast? = some Ev.setNotReady := by
  rcases sc with ⟨dial, frames, read⟩
  cases hd
  cases read with
  | ctxDoneFirst =>
    exact ⟨[Ev.closeConn, Ev.joinRead, Ev.setNotReady], rfl, rfl, rfl, rfl⟩
  | readErrFirst e =>
    exact ⟨[Ev.joinRead, slog .info ("ERR: " ++ e), Ev.closeConn, Ev.setNotReady],
      rfl, rfl, rfl, rfl⟩

/-- Witness for C8: the concrete read-failure session with one frame. -/
theorem rtsp_C8_witness :
    ∃ tail : List Ev,
      (runInner scReadErrW).1 =
        [slog .debug "connecting", .joinDial, .cancelInner, slog .info "ready",
          Ev.setReady connW.tracks] ++ scReadErrW.frames.map Ev.frame ++ tail ∧
      tail.filter isFrame = [] ∧
      readyCount tail = 0 ∧
      tail.getLast? = some Ev.setNotReady :=
  rtsp_C8_session_ordering scReadErrW connW rfl

/-- C9: a cancelled attempt never logs an error (its only log lines are
the debug "connecting" line and possibly the info "ready" line), while
every connect failure and every read failure is logged at info level
with the underlying error and makes the attempt report failed (`true`,
i.e. retried rather than fatal). -/
theorem rtsp_C9_error_classification (sc : AttemptScenario) :
    ((runInner sc).2 = false →
      logs (runInner sc).1 = [slog .debug "connecting"] ∨
      logs (runInner sc).1 = [slog .debug "connecting", slog .info "ready"]) ∧
    (∀ e, sc.dial = DialRace.dialDoneFirst (.error e) →
      (runInner sc).2 = true ∧ slog .info ("ERR: " ++ e) ∈ (runInner sc).1) ∧
    (∀ conn e, sc.dial = DialRace.dialDoneFirst (.ok conn) →
      sc.read = ReadRace.readErrFirst e →
      (runInner sc).2 = true ∧ slog .info ("ERR: " ++ e) ∈ (runInner sc).1) := by
  rcases sc with ⟨dial, frames, read⟩
  have hfr := filter_map_frame
    (fun e => match e with | Ev.log _ _ => true | _ => false) (fun _ => rfl) frames
  refine ⟨?_, ?_, ?_⟩
  · intro hret
    cases dial with
    | ctxDoneFirst => left; rfl
    | dialDoneFirst res =>
      cases res with
      | error e => exact absurd hret (by simp [runInner])
      | ok conn =>
        cases read with
        | ctxDoneFirst =>
          right
          simp [runInner, logs, List.filter_append, hfr, slog]
        | readErrFirst e => exact absurd hret (by simp [runInner])
  · intro e hd
    cases hd
    exact ⟨rfl, by simp [runInner]⟩
  · intro conn e hd hr
    cases hd
    cases hr
    exact ⟨rfl, by simp [runInner]⟩

/-- Witness for C9: the concrete connect-failure scenario is reported
failed and its error is logged at info level. -/
theorem rtsp_C9_witness :
    (runInner scDialErrW).2 = true ∧
    slog .info ("ERR: " ++ "dial refused") ∈ (runInner scDialErrW).1 :=
  (rtsp_C9_error_classification scDialErrW).2.1 "dial refused" rfl

/-- C10: the trust-verification callback indexes the first peer
certificate without a non-emptiness check: on an empty certificate list
it panics (modelled as `none`); on a non-empty list it is total and
evaluates the pinning check on the leaf certificate. -/
theorem rtsp_C10_leaf_index_partial (fingerprint : String) :
    verifyConnection fingerprint [] = none ∧
    ∀ (c : List Nat) (cs : List (List Nat)),
      verifyConnection fingerprint (c :: cs) = some (verifyCert fingerprint c) :=
  ⟨rfl, fun _ _ => rfl⟩

/-- C2 counterexample: with an empty configured fingerprint and a peer
certificate whose chain validates, the installed callback rejects the
connection, so the trust decision does not equal the standard
chain-validation outcome — pinning is not disabled by an empty
fingerprint. -/
theorem rtsp_C2_counterexample :
    tlsTrustDecision "" true [[]] = some false ∧
    tlsTrustDecision "" true [[]] ≠ some (standardChainTrust true) := by
  constructor
  · decide
  · decide

/-- C2 amended: an empty configured fingerprint does not fall back to
standard trust; the callback compares the 64-character hex digest
against the empty string and therefore rejects every peer certificate
on every TLS connection, whatever the chain-validation outcome. -/
theorem rtsp_C2_empty_fingerprint_rejects_all (chainOk : Bool) (cert : List Nat)
    (rest : List (List Nat)) :
    tlsTrustDecision "" chainOk (cert :: rest) = some false := by
  have h0 : toLowerStr "" = "" := rfl
  have hne : hexEncodeToString (sha256 cert) ≠ toLowerStr "" := by
    rw [h0]; exact hexEncode_sha256_ne_empty cert
  have hv : verifyCert "" cert =
      Except.error ("server fingerprint do not match: expected " ++ toLowerStr "" ++
        ", got " ++ hexEncodeToString (sha256 cert)) := by
    unfold verifyCert
    rw [if_pos hne]
  simp [tlsTrustDecision, verifyConnection, hv]

/-- C3: for a non-empty fingerprint the check succeeds exactly when the
certificate's hex-encoded SHA-256 digest equals the configured
fingerprint up to letter case — succeeding regardless of chain validity
on a match, and failing with an error naming the expected and actual
fingerprints on a mismatch. -/
theorem rtsp_C3_fingerprint_pinning (fingerprint : String) (cert : List Nat)
    (chainOk : Bool) (rest : List (List Nat)) (hnz : fingerprint ≠ "") :
    (verifyCert fingerprint cert = .ok () ↔
      toLowerStr fingerprint = toLowerStr (hexEncodeToString (sha256 cert))) ∧
    (toLowerStr fingerprint = toLowerStr (hexEncodeToString (sha256 cert)) →
      tlsTrustDecision fingerprint chainOk (cert :: rest) = some true) ∧
    (toLowerStr fingerprint ≠ toLowerStr (hexEncodeToString (sha256 cert)) →
      tlsTrustDecision fingerprint chainOk (cert :: rest) = some false ∧
      verifyCert fingerprint cert =
        .error ("server fingerprint do not match: expected " ++ toLowerStr fingerprint ++
          ", got " ++ hexEncodeToString (sha256 cert))) := by
  have hfix : toLowerStr (hexEncodeToString (sha256 cert)) = hexEncodeToString (sha256 cert) :=
    hexEncode_lower_fixed _ (sha256_bytes_lt cert)
  rw [hfix]
  refine ⟨?_, ?_, ?_⟩
  · unfold verifyCert
    by_cases h : hexEncodeToString (sha256 cert) = toLowerStr fingerprint
    · rw [if_neg (not_not_intro h)]
      exact iff_of_true rfl h.symm
    · rw [if_pos h]
      exact iff_of_false (fun hx => Except.noConfusion hx) (fun he => h he.symm)
  · intro heq
    have hv : verifyCert fingerprint cert = .ok () := by
      unfold verifyCert
      rw [if_neg (not_not_intro heq.symm)]
    simp [tlsTrustDecision, verifyConnection, hv]
  · intro hneq
    have h' : hexEncodeToString (sha256 cert) ≠ toLowerStr fingerprint :=
      fun hx => hneq hx.symm
    have hv : verifyCert fingerprint cert =
        .error ("server fingerprint do not match: expected " ++ toLowerStr fingerprint ++
          ", got " ++ hexEncodeToString (sha256 cert)) := by
      unfold verifyCert
      rw [if_pos h']
    exact ⟨by simp [tlsTrustDecision, verifyConnection, hv], hv⟩

/-- Witness for C3: the spec's scenario — the fingerprint is configured
in uppercase, the presented digest is lowercase, and the connection is
trusted even though chain validation fails. -/
theorem rtsp_C3_witness :
    fingerprintW ≠ "" ∧ tlsTrustDecision fingerprintW false [certW] = some true :=
  ⟨by decide,
   (rtsp_C3_fingerprint_pinning fingerprintW certW false [] (by decide)).2.1 (by decide)⟩

end RTSPSource
